import Mathlib

/-!
Shallow embedding of the retrieval-augmented chatbot pipeline of the
SIA RTW portal (source: `src/lib/chatbot.ts` and the
`POST /api/chatbot/message` route handler).

Strings are modelled as lists of characters; JS numbers that only ever
hold small exact fractions (relevance scores) are modelled as rationals;
timestamps (`createdAt`) are naturals.  The Prisma store is modelled as a
plain list of rows, with `findMany` rendered as filter / stable sort /
take, and JS `Array.prototype.sort` (stable since ES2019) rendered as
`List.insertionSort`, which is the stable sort for a total preorder.
External effects (the document store read, the provider call, the append
of the turn pair) are made observable as an explicit event trace.
-/

namespace Chatbot

/-- Strings are modelled as lists of characters. -/
abbrev Str := List Char

/-- JS `String.prototype.includes`: substring containment. -/
def strContains (hay needle : Str) : Bool :=
  hay.tails.any fun t => needle.isPrefixOf t

/-- JS `String.prototype.toLowerCase`, on the ASCII fragment the
pipeline manipulates. -/
def toLowerStr (s : Str) : Str := s.map Char.toLower

/-- The JS regex class `\w` (letters, digits, underscore). -/
def isWordChar (c : Char) : Bool := c.isAlphanum || c == '_'

/-- The fixed stop-word blacklist of `extractKeywords`
(`src/lib/chatbot.ts`). -/
def stopWords : List Str :=
  (["the", "is", "at", "which", "on", "a", "an", "and", "or", "but", "in",
    "with", "to", "for", "of", "as", "by", "that", "this", "it", "from",
    "are", "was", "were", "been", "be", "have", "has", "had", "do", "does",
    "did", "will", "would", "could", "should", "may", "might", "can"]).map
    String.data

/-- One character step of `.replace(/[^\w\s]/g, ' ')`: anything that is
neither a word character nor whitespace becomes a space. -/
def cleanChar (c : Char) : Char :=
  if isWordChar c || c.isWhitespace then c else ' '

/-- Helper for splitting on runs of whitespace, accumulating the current
token in reverse. -/
def splitWsAux : Str → Str → List Str
  | [], acc => if acc.isEmpty then [] else [acc.reverse]
  | c :: cs, acc =>
    if c.isWhitespace then
      if acc.isEmpty then splitWsAux cs [] else acc.reverse :: splitWsAux cs []
    else splitWsAux cs (c :: acc)

/-- JS `.split(/\s+/)` restricted to non-empty fragments.  The source's
split can emit one empty leading fragment; the length filter of
`extractKeywords` discards it, so the two agree on the final output. -/
def splitWs (s : Str) : List Str := splitWsAux s []

/-- Model of `extractKeywords` (`src/lib/chatbot.ts`): lowercase, replace
every character outside `\w` and `\s` by a space, split on whitespace,
keep tokens of length `> 2` that are not stop words.  The source returns
the resulting array as-is: no deduplication happens. -/
def extractKeywords (query : Str) : List Str :=
  (splitWs ((toLowerStr query).map cleanChar)).filter fun w =>
    decide (2 < w.length) && !(stopWords.contains w)

/-- A row of the `trainingDocument` table, restricted to the fields the
pipeline reads. -/
structure TrainingDocument where
  title : Str
  content : Str
  documentType : Str
  isActive : Bool
  createdAt : Nat
deriving Repr, DecidableEq

/-- The `SearchResult` shape produced by `searchKnowledgeBase`. -/
structure SearchResult where
  content : Str
  title : Str
  type : Str
  score : ℚ
deriving Repr, DecidableEq

/-- Prisma `orderBy: { createdAt: 'desc' }` as a total preorder on
documents. -/
def byRecency (a b : TrainingDocument) : Prop := b.createdAt ≤ a.createdAt

instance : DecidableRel byRecency := fun _ _ => Nat.decLe _ _

/-- The empty-keyword fallback query of `searchKnowledgeBase`:
`findMany` over active documents, `take: 3`, newest first. -/
def recentActive (store : List TrainingDocument) (n : Nat) :
    List TrainingDocument :=
  (List.insertionSort byRecency (store.filter (·.isActive))).take n

/-- The Prisma `OR` of `contains` conditions built by
`searchKnowledgeBase`: some keyword occurs (case-insensitively) in the
content or in the title. -/
def matchesKeyword (keywords : List Str) (d : TrainingDocument) : Bool :=
  keywords.any fun k =>
    strContains (toLowerStr d.content) k || strContains (toLowerStr d.title) k

/-- The candidate set actually fetched on the keyword path: active
matching documents, newest first, `take: 5` applied by the database
before any scoring happens. -/
def keywordCandidates (store : List TrainingDocument) (keywords : List Str) :
    List TrainingDocument :=
  (List.insertionSort byRecency
    (store.filter fun d => d.isActive && matchesKeyword keywords d)).take 5

/-- The `matchCount` accumulator of `searchKnowledgeBase`: `+2` per
keyword contained in the lowercased title, `+1` per keyword contained in
the lowercased content. -/
def matchCount (keywords : List Str) (d : TrainingDocument) : Nat :=
  (keywords.map fun k =>
     (if strContains (toLowerStr d.title) k then 2 else 0) +
     (if strContains (toLowerStr d.content) k then 1 else 0)).sum

/-- `Math.min(matchCount / (keywords.length * 2), 1)`, written with
`mkRat` (equal to the quotient, see `relevanceScore_eq_div`) so that the
definition evaluates by kernel reduction. -/
def relevanceScore (keywords : List Str) (d : TrainingDocument) : ℚ :=
  min (mkRat (matchCount keywords d) (keywords.length * 2)) 1

/-- The result record built on the keyword path:
`content.substring(0, 1500)` plus the relevance score. -/
def mkKeywordResult (keywords : List Str) (d : TrainingDocument) :
    SearchResult :=
  { content := d.content.take 1500, title := d.title,
    type := d.documentType, score := relevanceScore keywords d }

/-- The result record built on the fallback path:
`content.substring(0, 1000)` with the fixed score `0.5`. -/
def mkFallbackResult (d : TrainingDocument) : SearchResult :=
  { content := d.content.take 1000, title := d.title,
    type := d.documentType, score := mkRat 1 2 }

/-- The comparator `(a, b) => b.score - a.score` as a total preorder:
descending by score, stable on ties. -/
def byScore (a b : SearchResult) : Prop := b.score ≤ a.score

instance : DecidableRel byScore := fun a b => inferInstanceAs (Decidable (b.score ≤ a.score))

/-- Model of `searchKnowledgeBase` (`src/lib/chatbot.ts`).  With no
usable keyword it returns the three most recent active documents at
score `0.5`; otherwise it fetches the five most recent active matching
documents, scores them, and sorts by score descending (stable, so ties
keep the newest-first database order). -/
def searchKnowledgeBase (store : List TrainingDocument) (query : Str) :
    List SearchResult :=
  let keywords := extractKeywords query
  if keywords.length = 0 then
    (recentActive store 3).map mkFallbackResult
  else
    List.insertionSort byScore
      ((keywordCandidates store keywords).map (mkKeywordResult keywords))

/-- Ranking following the words of the spec, for comparison with the
implementation.  Modelled from the spec, section 4.2/4.3: order by score
descending with ties broken by `createdAt` descending. -/
def bySpecRank (keywords : List Str) (a b : TrainingDocument) : Prop :=
  relevanceScore keywords b < relevanceScore keywords a ∨
    (relevanceScore keywords a = relevanceScore keywords b ∧
      b.createdAt ≤ a.createdAt)

instance (keywords : List Str) : DecidableRel (bySpecRank keywords) :=
  fun a b =>
    inferInstanceAs (Decidable (relevanceScore keywords b < relevanceScore keywords a ∨
      (relevanceScore keywords a = relevanceScore keywords b ∧
        b.createdAt ≤ a.createdAt)))

/-- Modelled from the spec, section 4.3 normal path: fetch ALL active
documents in which at least one term occurs in title or body, score
every match via 4.2, sort by score descending with recency tiebreak,
and only then take the top 5.  Stated solely to compare the spec's
retrieval contract with `searchKnowledgeBase`. -/
def searchKnowledgeBaseSpec (store : List TrainingDocument) (query : Str) :
    List SearchResult :=
  let keywords := extractKeywords query
  if keywords.length = 0 then
    (recentActive store 3).map mkFallbackResult
  else
    ((List.insertionSort (bySpecRank keywords)
        (store.filter fun d => d.isActive && matchesKeyword keywords d)).take
      5).map (mkKeywordResult keywords)

/-- Message roles, as stored (`USER`/`ASSISTANT`) and as sent to the
provider (`user`/`assistant`). -/
inductive Role
  | user
  | assistant
deriving Repr, DecidableEq

/-- A row of the `chatbotMessage` table. -/
structure ChatbotMessage where
  role : Role
  content : Str
  createdAt : Nat
deriving Repr, DecidableEq

/-- A row of the `chatbotConversation` table together with its messages,
kept in insertion order. -/
structure ChatbotConversation where
  id : Str
  userId : Str
  messages : List ChatbotMessage
deriving Repr, DecidableEq

/-- Prisma `orderBy: { createdAt: 'asc' }` on messages. -/
def byCreatedAsc (a b : ChatbotMessage) : Prop := a.createdAt ≤ b.createdAt

instance : DecidableRel byCreatedAsc := fun _ _ => Nat.decLe _ _

/-- The conversation fetch of `generateChatbotResponse`: the included
messages are ordered by `createdAt` ascending and `take: 10` is applied,
which keeps the FIRST ten rows of that ascending order. -/
def storedTurns (conv : ChatbotConversation) : List ChatbotMessage :=
  (List.insertionSort byCreatedAsc conv.messages).take 10

/-- The in-memory message shape sent to the provider. -/
structure ChatMessage where
  role : Role
  content : Str
deriving Repr, DecidableEq

/-- The `messageHistory` array built by `generateChatbotResponse`. -/
def messageHistory (conv : ChatbotConversation) : List ChatMessage :=
  (storedTurns conv).map fun m => { role := m.role, content := m.content }

/-- The `messages` argument of the provider call: history followed by
the new user message. -/
def providerMessages (conv : ChatbotConversation) (userMessage : Str) :
    List ChatMessage :=
  messageHistory conv ++ [{ role := Role.user, content := userMessage }]

/-- A content block of the provider response: a text block or any other
block kind (tool use, etc.). -/
inductive ContentBlock
  | text (s : Str)
  | nonText
deriving Repr, DecidableEq

/-- A successful provider response carries a list of content blocks. -/
structure ProviderResponse where
  content : List ContentBlock
deriving Repr, DecidableEq

/-- The outcome of the single provider call: success, or a thrown error
carrying an HTTP status when one is present (`none` models timeouts and
network failures, whose error object has no `status`). -/
inductive ProviderOutcome
  | success (r : ProviderResponse)
  | failure (status : Option Nat)
deriving Repr, DecidableEq

/-- The distinct error messages `generateChatbotResponse` can throw. -/
inductive ChatbotError
  | notConfigured
  | conversationNotFound
  | invalidApiKey
  | rateLimited
  | unavailable
  | generationFailed
deriving Repr, DecidableEq

/-- The catch block of `generateChatbotResponse`: `401` maps to the
invalid-key message, `429` to the rate-limit message, `>= 500` to the
unavailable message, and everything else — including errors with no
HTTP status at all, such as timeouts — to the generic failure message. -/
def classifyProviderFailure (status : Option Nat) : ChatbotError :=
  match status with
  | some s =>
    if s = 401 then ChatbotError.invalidApiKey
    else if s = 429 then ChatbotError.rateLimited
    else if 500 ≤ s then ChatbotError.unavailable
    else ChatbotError.generationFailed
  | none => ChatbotError.generationFailed

/-- Extraction of the assistant message from a successful response:
`response.content[0].type === 'text' ? response.content[0].text : ''`.
An empty content array makes the member access throw, and the thrown
error (with no `status`) lands in the generic branch of the catch; a
non-text first block yields the empty string silently. -/
def extractAssistantMessage (r : ProviderResponse) :
    Except ChatbotError Str :=
  match r.content with
  | [] => Except.error ChatbotError.generationFailed
  | ContentBlock.text s :: _ => Except.ok s
  | ContentBlock.nonText :: _ => Except.ok []

/-- Observable external effects of one request, in order of occurrence. -/
inductive Event
  | searchDocs
  | providerCall
  | saveCall
deriving Repr, DecidableEq

/-- `prisma.chatbotConversation.findUnique({ where: { id } })`. -/
def findConversation (convs : List ChatbotConversation) (cid : Str) :
    Option ChatbotConversation :=
  convs.find? fun c => c.id == cid

instance {ε α : Type} [DecidableEq ε] [DecidableEq α] :
    DecidableEq (Except ε α) := fun x y =>
  match x, y with
  | Except.ok a, Except.ok b =>
    if h : a = b then isTrue (congrArg Except.ok h)
    else isFalse fun hc => h (Except.ok.inj hc)
  | Except.error a, Except.error b =>
    if h : a = b then isTrue (congrArg Except.error h)
    else isFalse fun hc => h (Except.error.inj hc)
  | Except.ok _, Except.error _ => isFalse fun hc => Except.noConfusion hc
  | Except.error _, Except.ok _ => isFalse fun hc => Except.noConfusion hc

/-- The result of `generateChatbotResponse` together with the event
trace of the effects it performed. -/
structure GenResult where
  result : Except ChatbotError (Str × List SearchResult)
  events : List Event
deriving Repr, DecidableEq

/-- Model of `generateChatbotResponse` (`src/lib/chatbot.ts`).  The API
key is checked first; then the conversation is fetched and rejected with
one single message when it is absent or owned by another user; then the
document store is searched, and finally the provider is called once. -/
def generateChatbotResponse (apiKeyConfigured : Bool)
    (convs : List ChatbotConversation) (store : List TrainingDocument)
    (provider : ProviderOutcome) (userId conversationId userMessage : Str) :
    GenResult :=
  if apiKeyConfigured = false then
    { result := Except.error ChatbotError.notConfigured, events := [] }
  else
    match findConversation convs conversationId with
    | none =>
      { result := Except.error ChatbotError.conversationNotFound, events := [] }
    | some conv =>
      if (conv.userId == userId) = false then
        { result := Except.error ChatbotError.conversationNotFound,
          events := [] }
      else
        let searchResults := searchKnowledgeBase store userMessage
        match provider with
        | ProviderOutcome.failure status =>
          { result := Except.error (classifyProviderFailure status),
            events := [Event.searchDocs, Event.providerCall] }
        | ProviderOutcome.success r =>
          match extractAssistantMessage r with
          | Except.error e =>
            { result := Except.error e,
              events := [Event.searchDocs, Event.providerCall] }
          | Except.ok msg =>
            { result := Except.ok (msg, searchResults),
              events := [Event.searchDocs, Event.providerCall] }

/-- The body the route hands back: a success payload or `apiError`'s
message and status. -/
inductive ApiOutcome
  | ok (conversationId : Str) (message : Str) (sources : List SearchResult)
  | err (message : String) (status : Nat)
deriving Repr, DecidableEq

/-- Model of `POST /api/chatbot/message`.  Session and the local rate
limiter are checked first, then the zod bound `1 ≤ length ≤ 2000`; a
missing `conversationId` creates a fresh conversation owned by the
caller (`freshId` stands for the id the store assigns); the response is
generated, then `saveMessages` appends the turn pair (`saveOk = false`
models a store failure on that append).  Every error thrown from
generation or persistence is caught by the single catch-all, which
answers 500 with the one generic message. -/
def POST (freshId : Str) (sessionUser : Option Str) (rateLimitOk : Bool)
    (apiKeyConfigured : Bool) (convs : List ChatbotConversation)
    (store : List TrainingDocument) (provider : ProviderOutcome)
    (saveOk : Bool) (conversationId : Option Str) (message : Str) :
    ApiOutcome × List Event :=
  match sessionUser with
  | none => (ApiOutcome.err "Unauthorized" 401, [])
  | some uid =>
    if rateLimitOk = false then
      (ApiOutcome.err "Too many requests. Please wait a moment." 429, [])
    else if (decide (1 ≤ message.length) && decide (message.length ≤ 2000))
        = false then
      (ApiOutcome.err "Invalid message" 400, [])
    else
      let cid := conversationId.getD freshId
      let convs' :=
        match conversationId with
        | some _ => convs
        | none => convs ++ [{ id := freshId, userId := uid, messages := [] }]
      let gen :=
        generateChatbotResponse apiKeyConfigured convs' store provider uid cid
          message
      match gen.result with
      | Except.error _ =>
        (ApiOutcome.err "Failed to process message" 500, gen.events)
      | Except.ok (resp, sources) =>
        if saveOk then
          (ApiOutcome.ok cid resp sources, gen.events ++ [Event.saveCall])
        else
          (ApiOutcome.err "Failed to process message" 500,
            gen.events ++ [Event.saveCall])

/-! Concrete fixtures used by witnesses and counterexamples. -/

/-- A document whose title contains every probe keyword. -/
def docW : TrainingDocument :=
  { title := "alpha beta".data, content := "gamma".data,
    documentType := "qa".data, isActive := true, createdAt := 7 }

/-- Six active documents all matching the keyword `alpha`: the oldest
is the only one matching in the title (score `1`), the five newer ones
match only in the body (score `0.5` each). -/
def staleStore : List TrainingDocument :=
  [ { title := "alpha guide".data, content := "zzz".data,
      documentType := "qa".data, isActive := true, createdAt := 0 },
    { title := "note1".data, content := "alpha".data,
      documentType := "qa".data, isActive := true, createdAt := 1 },
    { title := "note2".data, content := "alpha".data,
      documentType := "qa".data, isActive := true, createdAt := 2 },
    { title := "note3".data, content := "alpha".data,
      documentType := "qa".data, isActive := true, createdAt := 3 },
    { title := "note4".data, content := "alpha".data,
      documentType := "qa".data, isActive := true, createdAt := 4 },
    { title := "note5".data, content := "alpha".data,
      documentType := "qa".data, isActive := true, createdAt := 5 } ]

/-- Conversation fixture with eleven stored turns, `createdAt` 0..10. -/
def elevenTurnConv : ChatbotConversation :=
  { id := "c1".data, userId := "u1".data,
    messages := (List.range 11).map fun i =>
      { role := Role.user, content := [], createdAt := i } }

/-- Conversation store fixture: one conversation owned by `u1`. -/
def convStore : List ChatbotConversation :=
  [{ id := "c1".data, userId := "u1".data, messages := [] }]

/-! Helper lemmas. -/

instance : IsTotal SearchResult byScore :=
  ⟨fun a b => le_total b.score a.score⟩

instance : IsTrans SearchResult byScore :=
  ⟨fun _ _ _ hab hbc => le_trans hbc hab⟩

instance : IsTotal TrainingDocument byRecency :=
  ⟨fun a b => Nat.le_total b.createdAt a.createdAt⟩

instance : IsTrans TrainingDocument byRecency :=
  ⟨fun _ _ _ hab hbc => Nat.le_trans hbc hab⟩

instance : IsTotal ChatbotMessage byCreatedAsc :=
  ⟨fun a b => Nat.le_total a.createdAt b.createdAt⟩

instance : IsTrans ChatbotMessage byCreatedAsc :=
  ⟨fun _ _ _ hab hbc => Nat.le_trans hab hbc⟩

theorem toLower_isUpper_eq_false (c : Char) :
    (Char.toLower c).isUpper = false := by
  simp only [Char.toLower]
  split
  · rename_i h
    obtain ⟨h1, h2⟩ := h
    interval_cases h3 : c.toNat <;> decide
  · rename_i h
    simp only [Char.isUpper]
    rw [Bool.and_eq_false_iff]
    by_contra hc
    push_neg at hc
    obtain ⟨ha, hb⟩ := hc
    apply h
    have ha' : (65 : UInt32) ≤ c.val := of_decide_eq_true (by simpa using ha)
    have hb' : c.val ≤ (90 : UInt32) := of_decide_eq_true (by simpa using hb)
    have ha2 : (65 : Nat) ≤ c.val.toNat := by
      have := UInt32.le_def.mp ha'
      exact (by simpa using BitVec.le_def.mp this)
    have hb2 : c.val.toNat ≤ (90 : Nat) := by
      have := UInt32.le_def.mp hb'
      exact (by simpa using BitVec.le_def.mp this)
    exact ⟨ha2, hb2⟩

theorem splitWsAux_chars {P : Char → Prop} :
    ∀ s acc : Str, (∀ c ∈ s, c.isWhitespace = false → P c) →
      (∀ c ∈ acc, P c) → ∀ w ∈ splitWsAux s acc, ∀ c ∈ w, P c := by
  intro s
  induction s with
  | nil =>
    intro acc _ hacc w hw c hc
    simp only [splitWsAux] at hw
    split at hw
    · exact absurd hw (List.not_mem_nil w)
    · rw [List.mem_singleton] at hw
      subst hw
      exact hacc c (List.mem_reverse.mp hc)
  | cons x xs ih =>
    intro acc hs hacc w hw c hc
    simp only [splitWsAux] at hw
    split at hw
    · rename_i hws
      split at hw
      · exact ih [] (fun d hd => hs d (List.mem_cons_of_mem x hd))
          (by intro d hd; exact absurd hd (List.not_mem_nil d)) w hw c hc
      · rw [List.mem_cons] at hw
        cases hw with
        | inl h =>
          subst h
          exact hacc c (List.mem_reverse.mp hc)
        | inr h =>
          exact ih [] (fun d hd => hs d (List.mem_cons_of_mem x hd))
            (by intro d hd; exact absurd hd (List.not_mem_nil d)) w h c hc
    · rename_i hws
      refine ih (x :: acc) (fun d hd => hs d (List.mem_cons_of_mem x hd))
        ?_ w hw c hc
      intro d hd
      rw [List.mem_cons] at hd
      cases hd with
      | inl h =>
        subst h
        exact hs d (List.mem_cons_self d xs) (Bool.of_not_eq_true hws)
      | inr h => exact hacc d h

theorem matchCount_ge (keywords : List Str) (d : TrainingDocument)
    (h : ∀ k ∈ keywords, strContains (toLowerStr d.title) k = true) :
    2 * keywords.length ≤ matchCount keywords d := by
  induction keywords with
  | nil => simp [matchCount]
  | cons k ks ih =>
    have hk := h k (List.mem_cons_self k ks)
    have ihk := ih fun x hx => h x (List.mem_cons_of_mem k hx)
    simp only [matchCount, List.map_cons, List.sum_cons, List.length_cons,
      hk, if_true] at *
    split <;> omega

/-- A successful generation performed exactly the document search
followed by one provider call. -/
theorem gen_ok_events (apiKeyConfigured : Bool)
    (convs : List ChatbotConversation) (store : List TrainingDocument)
    (provider : ProviderOutcome) (uid cid msg : Str)
    (p : Str × List SearchResult)
    (h : (generateChatbotResponse apiKeyConfigured convs store provider uid
        cid msg).result = Except.ok p) :
    (generateChatbotResponse apiKeyConfigured convs store provider uid cid
        msg).events = [Event.searchDocs, Event.providerCall] := by
  by_cases hk : apiKeyConfigured = false
  · simp only [generateChatbotResponse, if_pos hk] at h
    exact absurd h (by simp)
  · rcases hf : findConversation convs cid with _ | conv
    · simp only [generateChatbotResponse, if_neg hk, hf] at h
      exact absurd h (by simp)
    · by_cases ho : (conv.userId == uid) = false
      · simp only [generateChatbotResponse, if_neg hk, hf, if_pos ho] at h
        exact absurd h (by simp)
      · rcases provider with r | status
        · simp only [generateChatbotResponse, if_neg hk, hf, if_neg ho]
            at h ⊢
          rcases extractAssistantMessage r with e | s <;> rfl
        · simp only [generateChatbotResponse, if_neg hk, hf, if_neg ho] at h
          exact absurd h (by simp)

/-- The generation step never performs the append itself: `saveCall`
never occurs in its trace. -/
theorem saveCall_not_in_gen_events (apiKeyConfigured : Bool)
    (convs : List ChatbotConversation) (store : List TrainingDocument)
    (provider : ProviderOutcome) (uid cid msg : Str) :
    Event.saveCall ∉
      (generateChatbotResponse apiKeyConfigured convs store provider uid cid
        msg).events := by
  by_cases hk : apiKeyConfigured = false
  · simp [generateChatbotResponse, if_pos hk]
  · rcases hf : findConversation convs cid with _ | conv
    · simp [generateChatbotResponse, if_neg hk, hf]
    · by_cases ho : (conv.userId == uid) = false
      · simp only [generateChatbotResponse, if_neg hk, hf, if_pos ho]
        simp
      · rcases provider with r | status
        · simp only [generateChatbotResponse, if_neg hk, hf, if_neg ho]
          rcases extractAssistantMessage r with e | s <;> simp
        · simp only [generateChatbotResponse, if_neg hk, hf, if_neg ho]
          simp

/-- Stable take-n of the recency sort splits the input into the `n` most
recent rows and a rest that is everywhere at most as recent. -/
theorem take_recent_split (l : List TrainingDocument) (n : Nat) :
    ∃ dropped : List TrainingDocument,
      l.Perm ((List.insertionSort byRecency l).take n ++ dropped) ∧
        ∀ a ∈ (List.insertionSort byRecency l).take n, ∀ b ∈ dropped,
          b.createdAt ≤ a.createdAt := by
  refine ⟨(List.insertionSort byRecency l).drop n, ?_, ?_⟩
  · rw [List.take_append_drop]
    exact (List.perm_insertionSort byRecency l).symm
  · have hs := List.sorted_insertionSort byRecency l
    rw [← List.take_append_drop n (List.insertionSort byRecency l)] at hs
    exact fun a ha b hb => (List.pairwise_append.mp hs).2.2 a ha b hb

/-! Claim theorems. -/

/-- C9: on every path, `searchKnowledgeBase` returns at most 5 results
and every returned excerpt is at most 1500 characters long. -/
theorem searchKnowledgeBase_bounds (store : List TrainingDocument)
    (query : Str) :
    (searchKnowledgeBase store query).length ≤ 5 ∧
      ∀ r ∈ searchKnowledgeBase store query, r.content.length ≤ 1500 := by
  simp only [searchKnowledgeBase]
  by_cases h : (extractKeywords query).length = 0
  · rw [if_pos h]
    constructor
    · rw [List.length_map, recentActive, List.length_take]
      omega
    · intro r hr
      obtain ⟨d, _, rfl⟩ := List.mem_map.mp hr
      calc (mkFallbackResult d).content.length
          ≤ 1000 := List.length_take_le _ _
        _ ≤ 1500 := by omega
  · rw [if_neg h]
    constructor
    · rw [(List.perm_insertionSort byScore _).length_eq, List.length_map,
        keywordCandidates, List.length_take]
      omega
    · intro r hr
      rw [(List.perm_insertionSort byScore _).mem_iff] at hr
      obtain ⟨d, _, rfl⟩ := List.mem_map.mp hr
      exact List.length_take_le _ _

/-- Bridge between the `mkRat` form of the score and the quotient
written in the source. -/
theorem relevanceScore_eq_div (keywords : List Str) (d : TrainingDocument) :
    relevanceScore keywords d =
      min ((matchCount keywords d : ℚ) / ((keywords.length : ℚ) * 2)) 1 := by
  simp only [relevanceScore, Rat.mkRat_eq_div]
  push_cast
  rfl

/-- C5: the relevance score is `min(matchCount / (termCount * 2), 1)`
with 2 points per term contained in the lowercased title and 1 point
per term contained in the lowercased body; for a non-empty keyword list
it lies in `[0, 1]`, and a document whose lowercased title contains
every keyword scores exactly `1`. -/
theorem relevanceScore_bounds (keywords : List Str) (d : TrainingDocument)
    (h : keywords ≠ []) :
    relevanceScore keywords d =
        min ((matchCount keywords d : ℚ) / ((keywords.length : ℚ) * 2)) 1 ∧
      0 ≤ relevanceScore keywords d ∧ relevanceScore keywords d ≤ 1 ∧
      ((∀ k ∈ keywords, strContains (toLowerStr d.title) k = true) →
        relevanceScore keywords d = 1) := by
  have heq := relevanceScore_eq_div keywords d
  have hlen : 0 < keywords.length := List.length_pos.mpr h
  have hlenq : (0 : ℚ) < (keywords.length : ℚ) := by exact_mod_cast hlen
  have hpos : (0 : ℚ) < (keywords.length : ℚ) * 2 := by positivity
  rw [heq]
  refine ⟨rfl, ?_, min_le_right _ _, ?_⟩
  · apply le_min
    · apply div_nonneg
      · exact_mod_cast Nat.zero_le _
      · positivity
    · norm_num
  · intro hall
    have hmc := matchCount_ge keywords d hall
    apply min_eq_right
    rw [one_le_div hpos]
    exact_mod_cast (by omega : keywords.length * 2 ≤ matchCount keywords d)

/-- C5 witness: the formula, the bounds and the saturation hold for a
concrete keyword list and document. -/
theorem relevanceScore_bounds_witness :
    (["alpha".data] : List Str) ≠ [] ∧
      (relevanceScore ["alpha".data] docW =
          min ((matchCount ["alpha".data] docW : ℚ) /
            (((["alpha".data] : List Str).length : ℚ) * 2)) 1 ∧
        0 ≤ relevanceScore ["alpha".data] docW ∧
        relevanceScore ["alpha".data] docW ≤ 1 ∧
        ((∀ k ∈ (["alpha".data] : List Str),
            strContains (toLowerStr docW.title) k = true) →
          relevanceScore ["alpha".data] docW = 1)) :=
  ⟨by decide, relevanceScore_bounds ["alpha".data] docW (by decide)⟩

/-- C8 counterexample: `extractKeywords` does not deduplicate — the
query `"cat cat"` yields the token `cat` twice, so the output is not a
set with duplicates removed as claimed. -/
theorem extractKeywords_keeps_duplicates :
    extractKeywords ("cat cat".data) = ["cat".data, "cat".data] ∧
      ¬ (extractKeywords ("cat cat".data)).Nodup := by
  constructor <;> decide

/-- C8 (amended): every token produced by `extractKeywords` has length
greater than 2, is not a stop word, and consists of word characters
(letters, digits, underscore) none of which is an uppercase letter;
duplicates, however, are kept (the output is a list, not a set). -/
theorem extractKeywords_tokens (query : Str) :
    ∀ w ∈ extractKeywords query,
      2 < w.length ∧ w ∉ stopWords ∧
        ∀ c ∈ w, isWordChar c = true ∧ c.isUpper = false := by
  intro w hw
  simp only [extractKeywords] at hw
  rw [List.mem_filter] at hw
  obtain ⟨hmem, hcond⟩ := hw
  rw [Bool.and_eq_true, decide_eq_true_eq, Bool.not_eq_true'] at hcond
  obtain ⟨hlen, hstop⟩ := hcond
  refine ⟨hlen, ?_, ?_⟩
  · intro hmemstop
    have helem : stopWords.elem w = true := List.elem_iff.mpr hmemstop
    have : stopWords.contains w = true := helem
    rw [this] at hstop
    exact Bool.noConfusion hstop
  · intro c hc
    refine splitWsAux_chars
      (P := fun c => isWordChar c = true ∧ c.isUpper = false) _ [] ?_ ?_ w
      hmem c hc
    · intro d hd hdws
      obtain ⟨e, he, rfl⟩ := List.mem_map.mp hd
      obtain ⟨c₀, _, rfl⟩ := List.mem_map.mp he
      simp only [cleanChar] at hdws ⊢
      by_cases hcl : (isWordChar (Char.toLower c₀) ||
          (Char.toLower c₀).isWhitespace) = true
      · rw [if_pos hcl] at hdws ⊢
        refine ⟨?_, toLower_isUpper_eq_false c₀⟩
        rcases Bool.or_eq_true_iff.mp hcl with h1 | h1
        · exact h1
        · rw [h1] at hdws
          exact absurd hdws (by simp)
      · rw [if_neg hcl] at hdws
        exact absurd hdws (by decide)
    · intro d hd
      exact absurd hd (List.not_mem_nil d)

/-- C8 (amended) witness: the token properties hold for a concrete
query and token. -/
theorem extractKeywords_tokens_witness :
    ("cat".data ∈ extractKeywords ("cat".data)) ∧
      (2 < ("cat".data : Str).length ∧ ("cat".data : Str) ∉ stopWords ∧
        ∀ c ∈ ("cat".data : Str), isWordChar c = true ∧ c.isUpper = false) :=
  ⟨by decide, extractKeywords_tokens ("cat".data) ("cat".data) (by decide)⟩

/-- C6: with no usable keyword, every returned result carries the fixed
neutral score `0.5`, the number of results is `min 3 #active`, the
result is non-empty as soon as one active document exists, and the
returned documents are the most recent active ones: every active
document left out is at most as recent as every one returned. -/
theorem searchKnowledgeBase_fallback (store : List TrainingDocument)
    (query : Str) (h : extractKeywords query = []) :
    (∀ r ∈ searchKnowledgeBase store query, r.score = 1 / 2) ∧
      (searchKnowledgeBase store query).length =
        min 3 (store.filter (·.isActive)).length ∧
      ((∃ d ∈ store, d.isActive = true) →
        searchKnowledgeBase store query ≠ []) ∧
      ∃ dropped : List TrainingDocument,
        (store.filter (·.isActive)).Perm (recentActive store 3 ++ dropped) ∧
          searchKnowledgeBase store query =
            (recentActive store 3).map mkFallbackResult ∧
          ∀ a ∈ recentActive store 3, ∀ b ∈ dropped,
            b.createdAt ≤ a.createdAt := by
  have h0 : (extractKeywords query).length = 0 := by rw [h]; rfl
  have hsk : searchKnowledgeBase store query =
      (recentActive store 3).map mkFallbackResult := by
    simp only [searchKnowledgeBase]
    rw [if_pos h0]
  obtain ⟨dropped, hperm, hcross⟩ :=
    take_recent_split (store.filter (·.isActive)) 3
  refine ⟨?_, ?_, ?_, dropped, hperm, hsk, hcross⟩
  · intro r hr
    rw [hsk] at hr
    obtain ⟨d, _, rfl⟩ := List.mem_map.mp hr
    show mkRat 1 2 = 1 / 2
    rw [Rat.mkRat_eq_div]
    norm_num
  · rw [hsk, List.length_map, recentActive, List.length_take,
      (List.perm_insertionSort byRecency _).length_eq]
  · rintro ⟨d, hd, hda⟩ hnil
    rw [hsk] at hnil
    have h1 : recentActive store 3 = [] := List.map_eq_nil_iff.mp hnil
    rw [recentActive, List.take_eq_nil_iff] at h1
    have h2 : List.insertionSort byRecency (store.filter (·.isActive)) ≠ [] := by
      intro h3
      have h4 : (store.filter (·.isActive)).length = 0 := by
        rw [← (List.perm_insertionSort byRecency
          (store.filter (·.isActive))).length_eq, h3]
        rfl
      have h5 : d ∈ store.filter (·.isActive) :=
        List.mem_filter.mpr ⟨hd, hda⟩
      rw [List.length_eq_zero] at h4
      rw [h4] at h5
      exact absurd h5 (List.not_mem_nil d)
    rcases h1 with h1 | h1
    · exact absurd h1 (by omega)
    · exact absurd h1 h2

/-- C6 witness: the fallback facts hold for a concrete one-document
store and a stop-word-only query. -/
theorem searchKnowledgeBase_fallback_witness :
    extractKeywords ("is".data) = [] ∧
      ((∀ r ∈ searchKnowledgeBase [docW] ("is".data), r.score = 1 / 2) ∧
        (searchKnowledgeBase [docW] ("is".data)).length =
          min 3 ([docW].filter (·.isActive)).length ∧
        ((∃ d ∈ [docW], d.isActive = true) →
          searchKnowledgeBase [docW] ("is".data) ≠ []) ∧
        ∃ dropped : List TrainingDocument,
          ([docW].filter (·.isActive)).Perm
              (recentActive [docW] 3 ++ dropped) ∧
            searchKnowledgeBase [docW] ("is".data) =
              (recentActive [docW] 3).map mkFallbackResult ∧
            ∀ a ∈ recentActive [docW] 3, ∀ b ∈ dropped,
              b.createdAt ≤ a.createdAt) :=
  ⟨by decide, searchKnowledgeBase_fallback [docW] ("is".data) (by decide)⟩

/-- C1 (amended): on the keyword path the returned results are, up to
the stable score-descending sort, exactly the FIVE MOST RECENT active
matching documents — the database applies `take: 5` on recency before
any scoring — each scored by the 4.2 formula; every active matching
document beyond those five is at most as recent and is never
considered, whatever its score. -/
theorem searchKnowledgeBase_keyword (store : List TrainingDocument)
    (query : Str) (h : extractKeywords query ≠ []) :
    (searchKnowledgeBase store query).Perm
        ((keywordCandidates store (extractKeywords query)).map
          (mkKeywordResult (extractKeywords query))) ∧
      List.Sorted byScore (searchKnowledgeBase store query) ∧
      ∃ dropped : List TrainingDocument,
        (store.filter fun d =>
            d.isActive && matchesKeyword (extractKeywords query) d).Perm
          (keywordCandidates store (extractKeywords query) ++ dropped) ∧
        ∀ a ∈ keywordCandidates store (extractKeywords query),
          ∀ b ∈ dropped, b.createdAt ≤ a.createdAt := by
  have h0 : ¬(extractKeywords query).length = 0 := by
    have := List.length_pos.mpr h
    omega
  have hsk : searchKnowledgeBase store query =
      List.insertionSort byScore
        ((keywordCandidates store (extractKeywords query)).map
          (mkKeywordResult (extractKeywords query))) := by
    simp only [searchKnowledgeBase]
    rw [if_neg h0]
  obtain ⟨dropped, hperm, hcross⟩ :=
    take_recent_split
      (store.filter fun d =>
        d.isActive && matchesKeyword (extractKeywords query) d) 5
  refine ⟨?_, ?_, dropped, hperm, hcross⟩
  · rw [hsk]
    exact List.perm_insertionSort _ _
  · rw [hsk]
    exact List.sorted_insertionSort _ _

/-- C1 counterexample: on `staleStore` the document scoring `1.0`
(matching in the title, but oldest) is absent from the output because
the query takes the five most recent matches before scoring, while the
spec-mandated top-5-of-all-matches retrieval would return it first; the
two disagree. -/
theorem searchKnowledgeBase_drops_top_match :
    ((searchKnowledgeBase staleStore ("alpha".data)).map
          (fun r => r.title)).contains ("alpha guide".data) = false ∧
      searchKnowledgeBase staleStore ("alpha".data) ≠
        searchKnowledgeBaseSpec staleStore ("alpha".data) ∧
      ((searchKnowledgeBaseSpec staleStore ("alpha".data)).map
          (fun r => r.title)).contains ("alpha guide".data) = true := by
  refine ⟨by decide, by decide, by decide⟩

/-- C1 witness for the amended theorem, at a concrete store and query. -/
theorem searchKnowledgeBase_keyword_witness :
    extractKeywords ("alpha".data) ≠ [] ∧
      ((searchKnowledgeBase staleStore ("alpha".data)).Perm
          ((keywordCandidates staleStore
              (extractKeywords ("alpha".data))).map
            (mkKeywordResult (extractKeywords ("alpha".data)))) ∧
        List.Sorted byScore (searchKnowledgeBase staleStore ("alpha".data)) ∧
        ∃ dropped : List TrainingDocument,
          (staleStore.filter fun d =>
              d.isActive &&
                matchesKeyword (extractKeywords ("alpha".data)) d).Perm
            (keywordCandidates staleStore
                (extractKeywords ("alpha".data)) ++ dropped) ∧
          ∀ a ∈ keywordCandidates staleStore
              (extractKeywords ("alpha".data)),
            ∀ b ∈ dropped, b.createdAt ≤ a.createdAt) :=
  ⟨by decide, searchKnowledgeBase_keyword staleStore ("alpha".data)
    (by decide)⟩

/-- C2 (code bug): with eleven stored turns, the history built for the
provider keeps the ten OLDEST turns (`createdAt` 0 .. 9) and drops the
newest one — `orderBy createdAt asc` combined with `take: 10` keeps the
first ten rows of the ascending order, although the source comment
says "Last 10 messages for context".  The new user message is still
appended last. -/
theorem storedTurns_keeps_oldest :
    ((storedTurns elevenTurnConv).map (fun m => m.createdAt) =
        [0, 1, 2, 3, 4, 5, 6, 7, 8, 9]) ∧
      ((storedTurns elevenTurnConv).map (fun m => m.createdAt)).contains 10 =
        false ∧
      (providerMessages elevenTurnConv ("new question".data)).getLast? =
        some { role := Role.user, content := "new question".data } := by
  refine ⟨by decide, by decide, by decide⟩

/-- C10: when the conversation id resolves to nothing, or to a
conversation owned by a different user, `generateChatbotResponse` fails
with the one same error in both cases, and its event trace is empty: the
document store is never searched and the provider never invoked. -/
theorem conversation_access_uniform (convs : List ChatbotConversation)
    (store : List TrainingDocument) (provider : ProviderOutcome)
    (userId conversationId userMessage : Str)
    (h : ((findConversation convs conversationId).all fun conv =>
        !(conv.userId == userId)) = true) :
    generateChatbotResponse true convs store provider userId conversationId
        userMessage =
      { result := Except.error ChatbotError.conversationNotFound,
        events := [] } := by
  rcases hf : findConversation convs conversationId with _ | conv
  · simp [generateChatbotResponse, hf]
  · rw [hf] at h
    have hown : (conv.userId == userId) = false := by
      simp only [Option.all_some, Bool.not_eq_true'] at h
      exact h
    simp [generateChatbotResponse, hf, hown]

/-- C10 witness: user `u2` asking on `u1`'s conversation gets the
not-found failure with no store search and no provider call. -/
theorem conversation_access_uniform_witness :
    ((findConversation convStore ("c1".data)).all fun conv =>
        !(conv.userId == ("u2".data : Str))) = true ∧
      generateChatbotResponse true convStore []
          (ProviderOutcome.failure none) ("u2".data) ("c1".data)
          ("hello".data) =
        { result := Except.error ChatbotError.conversationNotFound,
          events := [] } :=
  ⟨by decide, conversation_access_uniform convStore []
    (ProviderOutcome.failure none) ("u2".data) ("c1".data) ("hello".data)
    (by decide)⟩

/-- C3 (amended): the catch block of `generateChatbotResponse`
classifies the provider failure by HTTP status — 401 to the invalid-key
error, 429 to the rate-limit error, any 5xx to the unavailable error,
and everything else, timeouts and other status-less failures included,
to the generic failure — but the route's catch-all collapses every one
of these into the single generic 500 response. -/
theorem provider_failure_classified_then_collapsed
    (convs : List ChatbotConversation) (store : List TrainingDocument)
    (conv : ChatbotConversation) (status : Option Nat)
    (freshId uid cid msg : Str)
    (hfind : findConversation convs cid = some conv)
    (hown : (conv.userId == uid) = true)
    (hmsg : (decide (1 ≤ msg.length) && decide (msg.length ≤ 2000)) = true) :
    (generateChatbotResponse true convs store
        (ProviderOutcome.failure status) uid cid msg).result =
      Except.error (classifyProviderFailure status) ∧
    classifyProviderFailure (some 401) = ChatbotError.invalidApiKey ∧
    classifyProviderFailure (some 429) = ChatbotError.rateLimited ∧
    classifyProviderFailure (some 500) = ChatbotError.unavailable ∧
    classifyProviderFailure (some 503) = ChatbotError.unavailable ∧
    classifyProviderFailure none = ChatbotError.generationFailed ∧
    (POST freshId (some uid) true true convs store
        (ProviderOutcome.failure status) true (some cid) msg).1 =
      ApiOutcome.err "Failed to process message" 500 := by
  have hgen : (generateChatbotResponse true convs store
      (ProviderOutcome.failure status) uid cid msg).result =
    Except.error (classifyProviderFailure status) := by
    have hown' : ¬(conv.userId == uid) = false := by
      rw [hown]
      exact Bool.noConfusion
    simp only [generateChatbotResponse, hfind]
    rw [if_neg (by exact Bool.noConfusion), if_neg hown']
  refine ⟨hgen, by decide, by decide, by decide, by decide, rfl, ?_⟩
  simp only [POST, hmsg]
  rw [if_neg (by exact Bool.noConfusion)]
  simp only [Bool.true_eq_false, if_false, Option.getD_some]
  rw [hgen]

/-- C3 witness: the classification and the collapse hold for the
concrete one-conversation store with a provider 429. -/
theorem provider_failure_collapsed_witness :
    findConversation convStore ("c1".data) =
        some { id := "c1".data, userId := "u1".data, messages := [] } ∧
      (({ id := "c1".data, userId := "u1".data,
          messages := [] } : ChatbotConversation).userId ==
        ("u1".data : Str)) = true ∧
      (decide (1 ≤ ("hello".data : Str).length) &&
        decide (("hello".data : Str).length ≤ 2000)) = true ∧
      ((generateChatbotResponse true convStore []
          (ProviderOutcome.failure (some 429)) ("u1".data) ("c1".data)
          ("hello".data)).result =
        Except.error (classifyProviderFailure (some 429)) ∧
      classifyProviderFailure (some 401) = ChatbotError.invalidApiKey ∧
      classifyProviderFailure (some 429) = ChatbotError.rateLimited ∧
      classifyProviderFailure (some 500) = ChatbotError.unavailable ∧
      classifyProviderFailure (some 503) = ChatbotError.unavailable ∧
      classifyProviderFailure none = ChatbotError.generationFailed ∧
      (POST [] (some ("u1".data)) true true convStore []
          (ProviderOutcome.failure (some 429)) true (some ("c1".data))
          ("hello".data)).1 =
        ApiOutcome.err "Failed to process message" 500) :=
  ⟨by decide, by decide, by decide,
    provider_failure_classified_then_collapsed convStore []
      { id := "c1".data, userId := "u1".data, messages := [] } (some 429)
      [] ("u1".data) ("c1".data) ("hello".data) (by decide) (by decide)
      (by decide)⟩

/-- C3 counterexample: a provider 429 comes back to the caller as the
generic 500, not as 429, so the endpoint does not return the status of
the classified kind; and a timeout — a failure with no HTTP status —
is classified as the generic failure, not as unavailable. -/
theorem provider_429_collapsed_to_500 :
    (POST [] (some ("u1".data)) true true convStore []
        (ProviderOutcome.failure (some 429)) true (some ("c1".data))
        ("hello".data)).1 =
      ApiOutcome.err "Failed to process message" 500 ∧
    (generateChatbotResponse true convStore []
        (ProviderOutcome.failure none) ("u1".data) ("c1".data)
        ("hello".data)).result =
      Except.error ChatbotError.generationFailed ∧
    ChatbotError.generationFailed ≠ ChatbotError.unavailable := by
  refine ⟨by decide, by decide, by decide⟩

/-- C4 counterexample: a successful provider response whose only
content block is non-textual makes generation SUCCEED with the empty
string as the assistant reply — no failure of any kind is raised. -/
theorem nonText_block_yields_empty_string :
    (generateChatbotResponse true convStore []
        (ProviderOutcome.success { content := [ContentBlock.nonText] })
        ("u1".data) ("c1".data) ("hello".data)).result =
      Except.ok (([] : Str), ([] : List SearchResult)) := by decide

/-- C4 (amended): on a successful provider response the reply is the
text of the first block when that block is textual; when the first
block is non-textual the reply is silently the empty string; only an
empty content array fails, and then with the generic failure error
rather than a dedicated kind. -/
theorem generation_content_extraction (convs : List ChatbotConversation)
    (store : List TrainingDocument) (conv : ChatbotConversation)
    (r : ProviderResponse) (uid cid msg : Str)
    (hfind : findConversation convs cid = some conv)
    (hown : (conv.userId == uid) = true) :
    (generateChatbotResponse true convs store (ProviderOutcome.success r)
        uid cid msg).result =
      (extractAssistantMessage r).map
        (fun t => (t, searchKnowledgeBase store msg)) ∧
    (r.content.head? = some ContentBlock.nonText →
      (generateChatbotResponse true convs store (ProviderOutcome.success r)
          uid cid msg).result =
        Except.ok (([] : Str), searchKnowledgeBase store msg)) ∧
    (r.content = [] →
      (generateChatbotResponse true convs store (ProviderOutcome.success r)
          uid cid msg).result =
        Except.error ChatbotError.generationFailed) := by
  have hown' : ¬(conv.userId == uid) = false := by
    rw [hown]
    exact Bool.noConfusion
  have hmain : (generateChatbotResponse true convs store
      (ProviderOutcome.success r) uid cid msg).result =
    (extractAssistantMessage r).map
      (fun t => (t, searchKnowledgeBase store msg)) := by
    simp only [generateChatbotResponse, hfind]
    rw [if_neg (by exact Bool.noConfusion), if_neg hown']
    rcases extractAssistantMessage r with e | s <;> rfl
  refine ⟨hmain, ?_, ?_⟩
  · intro hhead
    rw [hmain]
    rcases hc : r.content with _ | ⟨b, rest⟩
    · rw [hc] at hhead
      exact absurd hhead (by simp)
    · rw [hc] at hhead
      simp only [List.head?_cons, Option.some.injEq] at hhead
      rw [extractAssistantMessage, hc, hhead]
      rfl
  · intro hc
    rw [hmain, extractAssistantMessage, hc]
    rfl

/-- C4 (amended) witness: the three extraction behaviours at a concrete
conversation and response. -/
theorem generation_content_extraction_witness :
    findConversation convStore ("c1".data) =
        some { id := "c1".data, userId := "u1".data, messages := [] } ∧
      (({ id := "c1".data, userId := "u1".data,
          messages := [] } : ChatbotConversation).userId ==
        ("u1".data : Str)) = true ∧
      ((generateChatbotResponse true convStore []
          (ProviderOutcome.success { content := [ContentBlock.nonText] })
          ("u1".data) ("c1".data) ("hello".data)).result =
        (extractAssistantMessage { content := [ContentBlock.nonText] }).map
          (fun t => (t, searchKnowledgeBase [] ("hello".data))) ∧
      (({ content := [ContentBlock.nonText] } :
            ProviderResponse).content.head? =
          some ContentBlock.nonText →
        (generateChatbotResponse true convStore []
            (ProviderOutcome.success { content := [ContentBlock.nonText] })
            ("u1".data) ("c1".data) ("hello".data)).result =
          Except.ok (([] : Str), searchKnowledgeBase [] ("hello".data))) ∧
      (({ content := [ContentBlock.nonText] } :
            ProviderResponse).content = [] →
        (generateChatbotResponse true convStore []
            (ProviderOutcome.success { content := [ContentBlock.nonText] })
            ("u1".data) ("c1".data) ("hello".data)).result =
          Except.error ChatbotError.generationFailed)) :=
  ⟨by decide, by decide,
    generation_content_extraction convStore []
      { id := "c1".data, userId := "u1".data, messages := [] }
      { content := [ContentBlock.nonText] } ("u1".data) ("c1".data)
      ("hello".data) (by decide) (by decide)⟩

/-- C7 counterexample: a run in which generation succeeds and the
append of the turn pair fails returns exactly the same outcome as a run
in which the provider call itself fails — the append failure is not
reported as a distinct persistence error, and the generated text is
discarded rather than returned with a warning. -/
theorem append_failure_indistinct :
    (POST [] (some ("u1".data)) true true convStore []
        (ProviderOutcome.success
          { content := [ContentBlock.text ("fine".data)] })
        false (some ("c1".data)) ("hello".data)).1 =
      ApiOutcome.err "Failed to process message" 500 ∧
    (POST [] (some ("u1".data)) true true convStore []
        (ProviderOutcome.success
          { content := [ContentBlock.text ("fine".data)] })
        false (some ("c1".data)) ("hello".data)).1 =
      (POST [] (some ("u1".data)) true true convStore []
          (ProviderOutcome.failure none) true (some ("c1".data))
          ("hello".data)).1 := by
  refine ⟨by decide, by decide⟩

/-- C7 (amended): when generation succeeds and the append fails, the
trace shows one single provider call followed by the append attempt,
and the caller receives the same generic 500 as for any other failure;
moreover, in every run of the route, the append is only ever attempted
after generation has returned a successful response. -/
theorem append_failure_semantics (freshId uid cid msg : Str)
    (convs : List ChatbotConversation) (store : List TrainingDocument)
    (provider : ProviderOutcome) (p : Str × List SearchResult)
    (hmsg : (decide (1 ≤ msg.length) && decide (msg.length ≤ 2000)) = true)
    (hgen : (generateChatbotResponse true convs store provider uid cid
        msg).result = Except.ok p) :
    POST freshId (some uid) true true convs store provider false (some cid)
        msg =
      (ApiOutcome.err "Failed to process message" 500,
        [Event.searchDocs, Event.providerCall, Event.saveCall]) ∧
      (POST freshId (some uid) true true convs store provider false
          (some cid) msg).2.count Event.providerCall = 1 ∧
      ∀ saveOk : Bool, ∀ pv : ProviderOutcome,
        Event.saveCall ∈
            (POST freshId (some uid) true true convs store pv saveOk
              (some cid) msg).2 →
          ∃ q, (generateChatbotResponse true convs store pv uid cid
              msg).result = Except.ok q := by
  have hevents := gen_ok_events true convs store provider uid cid msg p hgen
  obtain ⟨presp, psources⟩ := p
  have hrun : POST freshId (some uid) true true convs store provider false
      (some cid) msg =
    (ApiOutcome.err "Failed to process message" 500,
      [Event.searchDocs, Event.providerCall, Event.saveCall]) := by
    simp only [POST, hmsg]
    rw [if_neg (by exact Bool.noConfusion)]
    simp only [Bool.true_eq_false, if_false, Option.getD_some]
    rw [hgen, hevents]
    rfl
  refine ⟨hrun, ?_, ?_⟩
  · rw [hrun]
    rfl
  · intro saveOk pv hmem
    simp only [POST, hmsg] at hmem
    rw [if_neg (by exact Bool.noConfusion)] at hmem
    simp only [Bool.true_eq_false, if_false, Option.getD_some] at hmem
    rcases hg : (generateChatbotResponse true convs store pv uid cid
        msg).result with e | q
    · rw [hg] at hmem
      simp only at hmem
      exact absurd hmem
        (saveCall_not_in_gen_events true convs store pv uid cid msg)
    · exact ⟨q, rfl⟩

/-- C7 (amended) witness: a concrete run with a successful generation
and a failing append. -/
theorem append_failure_semantics_witness :
    (decide (1 ≤ ("hello".data : Str).length) &&
        decide (("hello".data : Str).length ≤ 2000)) = true ∧
      (generateChatbotResponse true convStore []
          (ProviderOutcome.success
            { content := [ContentBlock.text ("fine".data)] })
          ("u1".data) ("c1".data) ("hello".data)).result =
        Except.ok (("fine".data : Str), ([] : List SearchResult)) ∧
      (POST [] (some ("u1".data)) true true convStore []
          (ProviderOutcome.success
            { content := [ContentBlock.text ("fine".data)] })
          false (some ("c1".data)) ("hello".data) =
        (ApiOutcome.err "Failed to process message" 500,
          [Event.searchDocs, Event.providerCall, Event.saveCall]) ∧
      (POST [] (some ("u1".data)) true true convStore []
          (ProviderOutcome.success
            { content := [ContentBlock.text ("fine".data)] })
          false (some ("c1".data)) ("hello".data)).2.count
          Event.providerCall = 1 ∧
      ∀ saveOk : Bool, ∀ pv : ProviderOutcome,
        Event.saveCall ∈
            (POST [] (some ("u1".data)) true true convStore [] pv saveOk
              (some ("c1".data)) ("hello".data)).2 →
          ∃ q, (generateChatbotResponse true convStore [] pv ("u1".data)
              ("c1".data) ("hello".data)).result = Except.ok q) :=
  ⟨by decide, by decide,
    append_failure_semantics [] ("u1".data) ("c1".data) ("hello".data)
      convStore []
      (ProviderOutcome.success { content := [ContentBlock.text ("fine".data)] })
      (("fine".data : Str), ([] : List SearchResult)) (by decide)
      (by decide)⟩

end Chatbot
